import Mathlib

/-!
# Shallow embedding of `src/backend/server.py` (Beach Informs relational backend)

The backend is a FastAPI application over a MySQL pool.  We embed it as pure
Lean functions:

* the database is an explicit state (`DB`) of lists of rows, one list per
  table, together with the AUTO_INCREMENT counters;
* the connection pool is an explicit state (`PoolState`) counting acquired
  connections; `get_db_connection` / `release_db_connection` thread it;
* time is a `Nat` of Unix seconds (`datetime.utcnow()` becomes a `now`
  parameter);
* JWT signing (the `jwt` library, HS256) is modelled symbolically: a
  signature is the pair of the signed claim set and the secret, so a
  signature verifies exactly when it was produced over the same claims with
  the same secret (perfect-MAC model);
* bcrypt (`passlib`'s `pwd_context`) is an external verifier, threaded as a
  function parameter `bc : String → String → Bool`;
* a storage fault (the MySQL driver raising) is injected by a Boolean
  `fault` parameter; Python's `try/except/finally` is translated branch by
  branch.

Two slips in the source are embedded as they actually behave, not as
intended:

* `release_db_connection` is an `async def`, and every `finally` block calls
  it **without** `await`; the resulting coroutine is never scheduled, so
  `db_pool.release(conn)` never executes and the acquired connection is
  never returned to the pool;
* `except jwt.JWTError` (line 124) references a name PyJWT does not export;
  when an exception other than `ExpiredSignatureError` propagates out of the
  `try`, evaluating that except header raises `AttributeError`, which
  replaces the original exception and surfaces as the framework's generic
  500 — this covers tampered and malformed tokens, and also swallows the
  `HTTPException(401)` raised for a payload without a `sub` claim.
-/

deriving instance DecidableEq for Except

/-! ## HTTP-level results -/

/-- An `HTTPException` (or the framework's generic failure): status code and
detail string. -/
structure HttpError where
  status : Nat
  detail : String
  deriving DecidableEq, Repr

/-- A handler outcome: either an HTTP error response or a value returned with
status 200. -/
abbrev HResult (α : Type) := Except HttpError α

/-! ## JWT model

`create_access_token` / `jwt.decode` from `server.py` lines 101-128.
`SECRET_KEY`, `ALGORITHM = "HS256"` and `ACCESS_TOKEN_EXPIRE_MINUTES = 60*24`
are configuration; the secret is a parameter below. -/

/-- Minutes until token expiry: `ACCESS_TOKEN_EXPIRE_MINUTES = 60 * 24`. -/
def ACCESS_TOKEN_EXPIRE_MINUTES : Nat := 60 * 24

/-- The claim set carried by a token: the `sub` claim (absent or null is
`none`) and the `exp` claim in Unix seconds (`none` when the payload has no
expiry, in which case the library skips expiry validation). -/
structure Claims where
  sub : Option String
  exp : Option Nat
  deriving DecidableEq, Repr

/-- Symbolic HS256 signature over a claim set with a shared secret: in the
perfect-MAC model the signature is the signed data paired with the key, so
verification succeeds exactly for the claims/secret pair it was made over. -/
def jwtSig (c : Claims) (secret : String) : Claims × String := (c, secret)

/-- A bearer token as presented by a client: either a structurally valid JWT
carrying a claim set and a signature (possibly forged or tampered), or a
malformed string that the library cannot parse at all. -/
inductive Jwt where
  | signed (claims : Claims) (sig : Claims × String)
  | malformed (raw : String)
  deriving DecidableEq, Repr

/-- The errors PyJWT's `jwt.decode` can raise here: `ExpiredSignatureError`
for a verified-but-stale token, and the other `InvalidTokenError` kinds
(`jwtError`: bad signature or unparseable token).  PyJWT exports no
`JWTError` attribute, so the source's `except jwt.JWTError` clause can never
match — evaluating its header raises `AttributeError` instead. -/
inductive JwtError where
  | expired
  | jwtError
  deriving DecidableEq, Repr

/-- `jwt.encode(to_encode, SECRET_KEY, algorithm=ALGORITHM)`: sign the claim
set with the secret. -/
def jwtEncode (c : Claims) (secret : String) : Jwt :=
  .signed c (jwtSig c secret)

/-- `jwt.decode(token, SECRET_KEY, algorithms=[ALGORITHM])`: parse, verify
the signature, then validate the `exp` claim (expired when `exp < now`;
absent `exp` is not validated).  A parse failure or signature mismatch is the
generic JWT error; only a verified-but-stale token is the expiry error. -/
def jwtDecode (t : Jwt) (secret : String) (now : Nat) : Except JwtError Claims :=
  match t with
  | .malformed _ => .error .jwtError
  | .signed c sig =>
    if sig ≠ jwtSig c secret then .error .jwtError
    else match c.exp with
      | some e => if e < now then .error .expired else .ok c
      | none => .ok c

/-- `create_access_token(data)` (`server.py` 101-106): copy the payload,
overwrite `exp` with `utcnow() + ACCESS_TOKEN_EXPIRE_MINUTES` minutes, and
sign with the secret. -/
def create_access_token (data : Claims) (secret : String) (now : Nat) : Jwt :=
  jwtEncode { data with exp := some (now + ACCESS_TOKEN_EXPIRE_MINUTES * 60) } secret

/-- `get_current_user` (`server.py` 108-128) as it actually executes under
PyJWT.  `ExpiredSignatureError` matches the first `except` clause and maps
to 401 "Token has expired".  Every other exception leaving the `try` — a
tampered or malformed token (`InvalidTokenError`), and equally the
`HTTPException(401)` raised inside the `try` for a payload without a `sub`
claim — reaches the second clause, whose header `jwt.JWTError` names an
attribute PyJWT does not have; the resulting `AttributeError` replaces the
original exception and the framework answers with its generic
500 "Internal Server Error". -/
def get_current_user (credentials : Jwt) (secret : String) (now : Nat) :
    HResult String :=
  match jwtDecode credentials secret now with
  | .ok payload =>
    match payload.sub with
    | none => .error ⟨500, "Internal Server Error"⟩
    | some username => .ok username
  | .error .expired => .error ⟨401, "Token has expired"⟩
  | .error .jwtError => .error ⟨500, "Internal Server Error"⟩

/-- `security = HTTPBearer()` (`server.py` 33) composed with the
`Depends(get_current_user)` chain: FastAPI's `HTTPBearer` with `auto_error`
rejects a request with no `Authorization` bearer header with
`HTTPException(403, "Not authenticated")` before the dependency runs; with a
header present, the extracted token goes to `get_current_user`. -/
def authGate (header : Option Jwt) (secret : String) (now : Nat) :
    HResult String :=
  match header with
  | none => .error ⟨403, "Not authenticated"⟩
  | some tok => get_current_user tok secret now

/-! ## Password helpers (`server.py` 90-99) -/

/-- Python's `str.startswith(pre)`: the character sequence of `pre` is a
prefix of the character sequence of `s`. -/
def strStartsWith (s pre : String) : Bool :=
  pre.data.isPrefixOf s.data

/-- `verify_password(plain_password, hashed_password)`: bcrypt verification
when the stored value starts with the bcrypt marker `$2b$`, plain string
equality otherwise.  `bc` is `pwd_context.verify` (the external bcrypt
check). -/
def verify_password (bc : String → String → Bool)
    (plain_password hashed_password : String) : Bool :=
  if strStartsWith hashed_password "$2b$" then bc plain_password hashed_password
  else plain_password == hashed_password

/-! ## Database state -/

/-- A row of the `usuarios` table (the columns `login` uses). -/
structure UserRow where
  login : String
  password : String
  deriving DecidableEq, Repr

/-- A row of the `beaches` table. -/
structure BeachRow where
  id : Nat
  name : String
  deriving DecidableEq, Repr

/-- A row of the `beach_posts` table. -/
structure BeachPostRow where
  id : Nat
  beach_id : Nat
  name : String
  deriving DecidableEq, Repr

/-- A row of the `inform2_submissions` table.  The columns mirror the INSERT
of `submit_inform2`: the request fields, the JSON-encoded incidence list, the
server-side `username` and `created_at`. -/
structure Inform2Row where
  id : Nat
  date : String
  beach_name : String
  hour : Int
  minute : Int
  person_name : String
  age : Int
  postal_code : String
  incidences : List String
  observations : String
  username : String
  created_at : Nat
  deriving DecidableEq, Repr

/-- A row of the `inform4_submissions` table. -/
structure Inform4Row where
  id : Nat
  date : String
  beach_name : String
  hour : Int
  minute : Int
  wind_speed : Rat
  temperature : Rat
  wave_height : Rat
  username : String
  created_at : Nat
  deriving DecidableEq, Repr

/-- The MySQL database: one list of rows per table plus the AUTO_INCREMENT
counters. -/
structure DB where
  usuarios : List UserRow
  beaches : List BeachRow
  beach_posts : List BeachPostRow
  inform2_submissions : List Inform2Row
  inform4_submissions : List Inform4Row
  nextBeachId : Nat
  nextPostId : Nat
  nextInform2Id : Nat
  nextInform4Id : Nat
  deriving DecidableEq, Repr

/-- A database with empty tables and fresh AUTO_INCREMENT counters. -/
def emptyDB : DB :=
  { usuarios := [], beaches := [], beach_posts := [],
    inform2_submissions := [], inform4_submissions := [],
    nextBeachId := 1, nextPostId := 1, nextInform2Id := 1, nextInform4Id := 1 }

/-! ## Connection pool (`server.py` 130-136, 264-273) -/

/-- The aiomysql pool, abstracted to the number of currently acquired
connections. -/
structure PoolState where
  acquired : Nat
  deriving DecidableEq, Repr

/-- `get_db_connection()`: acquire a connection from the pool. -/
def get_db_connection (p : PoolState) : Nat × PoolState :=
  (p.acquired, ⟨p.acquired + 1⟩)

/-- The body of `async def release_db_connection(conn)`: what
`db_pool.release(conn)` does *when the coroutine is actually awaited* —
return the connection to the pool. -/
def release_db_connection (_conn : Nat) (p : PoolState) : PoolState :=
  ⟨p.acquired - 1⟩

/-- The call `release_db_connection(conn)` as every `finally` block in
`server.py` (lines 160, 172, 192, 222, 247, 372) actually makes it: without
`await`.  Calling an `async def` without awaiting it only creates a
coroutine object, which is never scheduled; the body never runs and the
pool keeps the connection marked acquired. -/
def release_db_connection_unawaited (_conn : Nat) (p : PoolState) : PoolState :=
  p

/-! ## ORDER BY -/

/-- Lexicographic comparison of character sequences (the order MySQL's
`ORDER BY` uses on the VARCHAR `name` columns, over the code points the
seeded data exercises). -/
def charListLe : List Char → List Char → Bool
  | [], _ => true
  | _ :: _, [] => false
  | a :: as, b :: bs =>
    if a.val < b.val then true
    else if b.val < a.val then false
    else charListLe as bs

/-- Lexicographic `≤` on strings via their character sequences. -/
def strLe (a b : String) : Bool :=
  charListLe a.data b.data

/-- Insertion of a row into a sorted list (helper for `ORDER BY`). -/
def insertSorted (le : α → α → Bool) (x : α) : List α → List α
  | [] => [x]
  | y :: ys => if le x y then x :: y :: ys else y :: insertSorted le x ys

/-- `ORDER BY` a column: stable insertion sort of the rows under the given
total comparison. -/
def sortRows (le : α → α → Bool) : List α → List α
  | [] => []
  | x :: xs => insertSorted le x (sortRows le xs)

/-- `ORDER BY name`: sort rows by their `name` column. -/
def orderByName (name : α → String) : List α → List α :=
  sortRows (fun a b => strLe (name a) (name b))

/-! ## Request models (`server.py` 52-87)

The pydantic models, field for field.  Note that neither submission model
has a `username` field: the request body cannot carry a submitter identity. -/

/-- `UserLogin`. -/
structure UserLogin where
  login : String
  password : String
  deriving DecidableEq, Repr

/-- `Token` (the login response). -/
structure Token where
  access_token : Jwt
  token_type : String
  deriving DecidableEq, Repr

/-- `Inform2Submission`: the full field list of the pydantic model — no
`username` field exists in the request schema. -/
structure Inform2Submission where
  date : String
  beach_name : String
  hour : Int
  minute : Int
  person_name : String
  age : Int
  postal_code : String
  incidences : List String
  observations : String
  deriving DecidableEq, Repr

/-- `Inform4Submission`: the full field list of the pydantic model — no
`username` field exists in the request schema. -/
structure Inform4Submission where
  date : String
  beach_name : String
  hour : Int
  minute : Int
  wind_speed : Rat
  temperature : Rat
  wave_height : Rat
  deriving DecidableEq, Repr

/-! ## Route handlers (`server.py` 139-247)

Each handler acquires a connection at the start and runs its body; the
`finally` then calls `release_db_connection(conn)` without `await`, so on
every path — success or failure — the release body never runs and the
connection stays acquired.  A `fault : Bool` parameter injects a storage
exception in the body; where the source has no `except` clause the exception
escapes the handler (the framework turns an unhandled exception into a
generic 500 "Internal Server Error"). -/

/-- `POST /api/auth/login` (`server.py` 139-160): look up the user row by
login; 401 if absent or the password fails `verify_password`; otherwise
issue a token with `sub` set to the submitted login.  `try/finally` with no
`except`: a storage fault escapes (framework 500); the `finally` makes the
un-awaited release call, which returns nothing to the pool. -/
def login (bc : String → String → Bool) (user : UserLogin) (secret : String)
    (now : Nat) (fault : Bool) (db : DB) (p : PoolState) :
    HResult Token × PoolState :=
  let (conn, p) := get_db_connection p
  let result : HResult Token :=
    if fault then .error ⟨500, "Internal Server Error"⟩
    else
      match db.usuarios.find? (fun r => r.login == user.login) with
      | none => .error ⟨401, "Incorrect login or password"⟩
      | some db_user =>
        if !(verify_password bc user.password db_user.password) then
          .error ⟨401, "Incorrect login or password"⟩
        else
          .ok ⟨create_access_token ⟨some user.login, none⟩ secret now, "bearer"⟩
  (result, release_db_connection_unawaited conn p)

/-- `GET /api/beaches` (`server.py` 163-172): `SELECT id, name FROM beaches
ORDER BY name`.  `try/finally` with no `except`: a fault escapes (framework
500); the `finally` makes the un-awaited release call. -/
def get_beaches (fault : Bool) (db : DB) (p : PoolState) :
    HResult (List BeachRow) × PoolState :=
  let (conn, p) := get_db_connection p
  let result : HResult (List BeachRow) :=
    if fault then .error ⟨500, "Internal Server Error"⟩
    else .ok (orderByName BeachRow.name db.beaches)
  (result, release_db_connection_unawaited conn p)

/-- `GET /api/beach-posts/{beach_id}` (`server.py` 174-192): `SELECT id,
beach_id, name FROM beach_posts WHERE beach_id = %s ORDER BY name`; a broad
`except Exception` turns any storage fault into `HTTPException(500, "Error
fetching beach posts")`; the `finally` makes the un-awaited release call on
both paths. -/
def get_beach_posts (beach_id : Nat) (fault : Bool) (db : DB) (p : PoolState) :
    HResult (List BeachPostRow) × PoolState :=
  let (conn, p) := get_db_connection p
  let result : HResult (List BeachPostRow) :=
    if fault then .error ⟨500, "Error fetching beach posts"⟩
    else .ok (orderByName BeachPostRow.name
      (db.beach_posts.filter (fun r => r.beach_id == beach_id)))
  (result, release_db_connection_unawaited conn p)

/-- The row `submit_inform2` INSERTs: the request fields plus the
server-side `username := current_user` and `created_at := utcnow()`, with
the AUTO_INCREMENT id. -/
def inform2Row (data : Inform2Submission) (current_user : String) (now : Nat)
    (db : DB) : Inform2Row :=
  { id := db.nextInform2Id, date := data.date, beach_name := data.beach_name,
    hour := data.hour, minute := data.minute, person_name := data.person_name,
    age := data.age, postal_code := data.postal_code,
    incidences := data.incidences, observations := data.observations,
    username := current_user, created_at := now }

/-- The success body of `submit_inform2` / `submit_inform4`: message and
`cursor.lastrowid`. -/
structure SubmitResponse where
  message : String
  id : Nat
  deriving DecidableEq, Repr

/-- `POST /api/inform2` (`server.py` 195-222): INSERT the submission row
(with `username := current_user`) and commit, returning `lastrowid`; on a
storage fault, `rollback` (the table is left unchanged) and raise
`HTTPException(500, "Error submitting Inform 2")`; the `finally` makes the
un-awaited release call on both paths. -/
def submit_inform2 (data : Inform2Submission) (current_user : String)
    (now : Nat) (fault : Bool) (db : DB) (p : PoolState) :
    HResult SubmitResponse × DB × PoolState :=
  let (conn, p) := get_db_connection p
  let (result, db) :
      HResult SubmitResponse × DB :=
    if fault then (.error ⟨500, "Error submitting Inform 2"⟩, db)
    else
      let row := inform2Row data current_user now db
      (.ok ⟨"Inform 2 submitted successfully", row.id⟩,
       { db with inform2_submissions := db.inform2_submissions ++ [row],
                 nextInform2Id := db.nextInform2Id + 1 })
  (result, db, release_db_connection_unawaited conn p)

/-- The row `submit_inform4` INSERTs: the request fields plus the
server-side `username := current_user` and `created_at := utcnow()`, with
the AUTO_INCREMENT id. -/
def inform4Row (data : Inform4Submission) (current_user : String) (now : Nat)
    (db : DB) : Inform4Row :=
  { id := db.nextInform4Id, date := data.date, beach_name := data.beach_name,
    hour := data.hour, minute := data.minute, wind_speed := data.wind_speed,
    temperature := data.temperature, wave_height := data.wave_height,
    username := current_user, created_at := now }

/-- `POST /api/inform4` (`server.py` 224-247): same shape as
`submit_inform2` with the Inform 4 fields. -/
def submit_inform4 (data : Inform4Submission) (current_user : String)
    (now : Nat) (fault : Bool) (db : DB) (p : PoolState) :
    HResult SubmitResponse × DB × PoolState :=
  let (conn, p) := get_db_connection p
  let (result, db) :
      HResult SubmitResponse × DB :=
    if fault then (.error ⟨500, "Error submitting Inform 4"⟩, db)
    else
      let row := inform4Row data current_user now db
      (.ok ⟨"Inform 4 submitted successfully", row.id⟩,
       { db with inform4_submissions := db.inform4_submissions ++ [row],
                 nextInform4Id := db.nextInform4Id + 1 })
  (result, db, release_db_connection_unawaited conn p)

/-! ## Startup bootstrap (`server.py` 260-372) -/

/-- The sample-data block of `startup_db` (`server.py` 342-370): after the
idempotent `CREATE TABLE IF NOT EXISTS` statements (structural no-ops in
this model), `SELECT COUNT(*) FROM beaches`; when the count is zero, INSERT
the three sample beaches (AUTO_INCREMENT ids), re-read their ids in id
order, and INSERT posts 'Post A', 'Post B', 'Post C' for each id, then
commit.  When the count is nonzero, nothing is inserted. -/
def startup_seed (db : DB) : DB :=
  if db.beaches.length == 0 then
    let b1 : BeachRow := ⟨db.nextBeachId, "Santa Monica Beach"⟩
    let b2 : BeachRow := ⟨db.nextBeachId + 1, "Venice Beach"⟩
    let b3 : BeachRow := ⟨db.nextBeachId + 2, "Malibu Beach"⟩
    let db := { db with beaches := db.beaches ++ [b1, b2, b3],
                        nextBeachId := db.nextBeachId + 3 }
    let beach_ids := sortRows (· ≤ ·) (db.beaches.map BeachRow.id)
    let db := beach_ids.foldl (fun db beach_id =>
      { db with
          beach_posts := db.beach_posts ++
            [⟨db.nextPostId, beach_id, "Post A"⟩,
             ⟨db.nextPostId + 1, beach_id, "Post B"⟩,
             ⟨db.nextPostId + 2, beach_id, "Post C"⟩],
          nextPostId := db.nextPostId + 3 }) db
    db
  else db

/-- `startup_db` (`server.py` 260-372) after pool creation: acquire a
connection, create the tables and seed sample data; the `finally` makes the
un-awaited release call.  A fault in the body escapes (startup fails); the
injection point is the first statement, before any write. -/
def startup_db (fault : Bool) (db : DB) (p : PoolState) :
    Except HttpError Unit × DB × PoolState :=
  let (conn, p) := get_db_connection p
  let (result, db) : Except HttpError Unit × DB :=
    if fault then (.error ⟨500, "Internal Server Error"⟩, db)
    else (.ok (), startup_seed db)
  (result, db, release_db_connection_unawaited conn p)

/-! ## Registration (document-store variant)

The relational variant under `src/backend` has no `/auth/register` route;
the spec records self-registration as existing only in the document-store
variant of this repository, whose source is not present here. -/

/-- Modelled from the spec: `register(username, password)` of the
document-store variant (`POST /auth/register`, no auth), absent from
`src/backend/server.py`.  Per §4.1 and the route table: "fails with Conflict
if username already exists; otherwise stores a hashed password and returns
success", mapping to 400 on a duplicate and 200 on success.  `hash` is the
external password-hashing function. -/
def register (hash : String → String) (username password : String)
    (users : List UserRow) : HResult Unit × List UserRow :=
  if users.any (fun r => r.login == username) then
    (.error ⟨400, "Username already registered"⟩, users)
  else
    (.ok (), users ++ [⟨username, hash password⟩])

/-- The database state after the first startup on an empty database. -/
def seededDB : DB := (startup_db false emptyDB ⟨0⟩).2.1

/-! # Theorems -/

/-- Helper: when no `beach_posts` row matches the requested `beach_id`, the
handler returns 200 with an empty list. -/
theorem get_beach_posts_empty_of_no_match (db : DB) (beach_id : Nat)
    (p : PoolState) (h : ∀ r ∈ db.beach_posts, r.beach_id ≠ beach_id) :
    (get_beach_posts beach_id false db p).1 = .ok [] := by
  have hf : db.beach_posts.filter (fun r => r.beach_id == beach_id) = [] := by
    simp only [List.filter_eq_nil_iff, beq_iff_eq]
    exact h
  simp [get_beach_posts, hf, orderByName, sortRows]

/-- **C1** (refuted — the claim describes the code's intent, not its
behaviour): every endpoint handler and the startup bootstrap acquires one
connection at the start, but because the `finally` blocks call the `async`
`release_db_connection` without `await`, the release body never runs: on
every path — success and fault alike — the connection count stays one above
the initial pool state, never equal to it.  The released state the claim
asserts would be `release_db_connection conn` applied to the post-acquire
pool, i.e. `p` itself — which the handlers provably never reach. -/
theorem pool_connection_never_released
    (bc : String → String → Bool) (user : UserLogin) (secret : String)
    (now : Nat) (fault : Bool) (db : DB) (p : PoolState) (beach_id : Nat)
    (d2 : Inform2Submission) (d4 : Inform4Submission) (cu : String) :
    (login bc user secret now fault db p).2 = ⟨p.acquired + 1⟩ ∧
    (get_beaches fault db p).2 = ⟨p.acquired + 1⟩ ∧
    (get_beach_posts beach_id fault db p).2 = ⟨p.acquired + 1⟩ ∧
    (submit_inform2 d2 cu now fault db p).2.2 = ⟨p.acquired + 1⟩ ∧
    (submit_inform4 d4 cu now fault db p).2.2 = ⟨p.acquired + 1⟩ ∧
    (startup_db fault db p).2.2 = ⟨p.acquired + 1⟩ ∧
    release_db_connection p.acquired ⟨p.acquired + 1⟩ = p ∧
    (⟨p.acquired + 1⟩ : PoolState) ≠ p := by
  refine ⟨rfl, rfl, rfl, rfl, rfl, rfl, rfl, fun h => ?_⟩
  have h' : p.acquired + 1 = p.acquired := congrArg PoolState.acquired h
  omega

/-- **C2** (refuted in its rejection half — the code contradicts its own
test suite, `backend_test.py::test_invalid_token`, which expects 401): a
token minted for "alice" under secret "s" at time 0 does round-trip to
"alice" at time 10 and is rejected 401 "Token has expired" at time 100000;
but a token whose signature does not verify (signed under "other", checked
under "s") and a malformed token both surface as the framework's
500 "Internal Server Error" — the `except jwt.JWTError` clause can never
catch them, its header evaluation raising `AttributeError` instead — not as
the 401 the claim asserts. -/
theorem token_roundtrip_holds_but_tampered_gives_500 :
    get_current_user (create_access_token ⟨some "alice", none⟩ "s" 0) "s" 10
      = .ok "alice" ∧
    get_current_user (create_access_token ⟨some "alice", none⟩ "s" 0) "s" 100000
      = .error ⟨401, "Token has expired"⟩ ∧
    get_current_user
        (.signed ⟨some "alice", some 999999⟩ (jwtSig ⟨some "alice", some 999999⟩ "other"))
        "s" 5
      = .error ⟨500, "Internal Server Error"⟩ ∧
    get_current_user (.malformed "invalid_token_12345") "s" 5
      = .error ⟨500, "Internal Server Error"⟩ := by
  refine ⟨by decide, by decide, by decide, rfl⟩

/-- **C3**: `verify_password p s` dispatches on whether the stored value `s`
starts with the bcrypt marker `$2b$`: bcrypt verification when it does,
direct string equality when it does not. -/
theorem verify_password_dispatch (bc : String → String → Bool)
    (p s : String) :
    (strStartsWith s "$2b$" = true → verify_password bc p s = bc p s) ∧
    (strStartsWith s "$2b$" = false → verify_password bc p s = (p == s)) := by
  constructor
  · intro h; simp [verify_password, h]
  · intro h; simp [verify_password, h]

/-- Witness for `verify_password_dispatch`: at the stored value `$2b$abc`
the bcrypt branch is taken; at the stored value `plain` the direct-equality
branch is taken. -/
theorem verify_password_dispatch_witness :
    verify_password (fun _ _ => true) "pw" "$2b$abc"
      = (fun _ _ => (true : Bool)) "pw" "$2b$abc" ∧
    verify_password (fun _ _ => true) "pw" "plain" = ("pw" == "plain") :=
  ⟨(verify_password_dispatch (fun _ _ => true) "pw" "$2b$abc").1 (by decide),
   (verify_password_dispatch (fun _ _ => true) "pw" "plain").2 (by decide)⟩

/-- **C4**: a successful Inform2 or Inform4 submission appends exactly one
row whose `username` column is the authenticated subject `cu` extracted from
the bearer token; the stored username is identical for any two request
bodies (the request schema has no username field — see `Inform2Submission`
and `Inform4Submission` — so no client-supplied field influences it). -/
theorem submission_username_is_token_subject
    (d2 d2' : Inform2Submission) (d4 d4' : Inform4Submission)
    (cu : String) (now : Nat) (db : DB) (p : PoolState) :
    (submit_inform2 d2 cu now false db p).2.1.inform2_submissions
        = db.inform2_submissions ++ [inform2Row d2 cu now db] ∧
    (inform2Row d2 cu now db).username = cu ∧
    (inform2Row d2 cu now db).username = (inform2Row d2' cu now db).username ∧
    (submit_inform4 d4 cu now false db p).2.1.inform4_submissions
        = db.inform4_submissions ++ [inform4Row d4 cu now db] ∧
    (inform4Row d4 cu now db).username = cu ∧
    (inform4Row d4 cu now db).username = (inform4Row d4' cu now db).username :=
  ⟨rfl, rfl, rfl, rfl, rfl, rfl⟩

/-- **C7**: on a storage fault, `submit_inform2` / `submit_inform4` roll
back — the database is returned unchanged — and respond with the generic
500; on success they commit the appended row and respond 200 with the
generated `lastrowid`. -/
theorem submit_fault_rolls_back
    (d2 : Inform2Submission) (d4 : Inform4Submission)
    (cu : String) (now : Nat) (db : DB) (p : PoolState) :
    (submit_inform2 d2 cu now true db p).1
        = .error ⟨500, "Error submitting Inform 2"⟩ ∧
    (submit_inform2 d2 cu now true db p).2.1 = db ∧
    (submit_inform4 d4 cu now true db p).1
        = .error ⟨500, "Error submitting Inform 4"⟩ ∧
    (submit_inform4 d4 cu now true db p).2.1 = db ∧
    (submit_inform2 d2 cu now false db p).1
        = .ok ⟨"Inform 2 submitted successfully", db.nextInform2Id⟩ ∧
    (submit_inform2 d2 cu now false db p).2.1
        = { db with inform2_submissions := db.inform2_submissions ++ [inform2Row d2 cu now db],
                    nextInform2Id := db.nextInform2Id + 1 } ∧
    (submit_inform4 d4 cu now false db p).1
        = .ok ⟨"Inform 4 submitted successfully", db.nextInform4Id⟩ ∧
    (submit_inform4 d4 cu now false db p).2.1
        = { db with inform4_submissions := db.inform4_submissions ++ [inform4Row d4 cu now db],
                    nextInform4Id := db.nextInform4Id + 1 } :=
  ⟨rfl, rfl, rfl, rfl, rfl, rfl, rfl, rfl⟩

/-- **C5**: the startup bootstrap inserts the sample data exactly when the
beach catalog is empty: on an empty catalog it inserts exactly the three
named beaches (consecutive AUTO_INCREMENT ids) and exactly three named
posts per beach referencing that beach's id; on a non-empty catalog the
database is left untouched; and after a first startup on an empty database
`GET /beaches` lists the three seeded beaches by name. -/
theorem startup_seeds_iff_catalog_empty (db : DB) (p : PoolState) :
    (db.beaches = [] →
      (startup_db false db p).2.1.beaches =
        [⟨db.nextBeachId, "Santa Monica Beach"⟩,
         ⟨db.nextBeachId + 1, "Venice Beach"⟩,
         ⟨db.nextBeachId + 2, "Malibu Beach"⟩] ∧
      (startup_db false db p).2.1.beach_posts =
        db.beach_posts ++
        [⟨db.nextPostId, db.nextBeachId, "Post A"⟩,
         ⟨db.nextPostId + 1, db.nextBeachId, "Post B"⟩,
         ⟨db.nextPostId + 2, db.nextBeachId, "Post C"⟩,
         ⟨db.nextPostId + 3, db.nextBeachId + 1, "Post A"⟩,
         ⟨db.nextPostId + 4, db.nextBeachId + 1, "Post B"⟩,
         ⟨db.nextPostId + 5, db.nextBeachId + 1, "Post C"⟩,
         ⟨db.nextPostId + 6, db.nextBeachId + 2, "Post A"⟩,
         ⟨db.nextPostId + 7, db.nextBeachId + 2, "Post B"⟩,
         ⟨db.nextPostId + 8, db.nextBeachId + 2, "Post C"⟩]) ∧
    (db.beaches ≠ [] → (startup_db false db p).2.1 = db) ∧
    ((get_beaches false seededDB ⟨0⟩).1 =
      .ok [⟨3, "Malibu Beach"⟩, ⟨1, "Santa Monica Beach"⟩, ⟨2, "Venice Beach"⟩] ∧
     "Santa Monica Beach" ∈ seededDB.beaches.map BeachRow.name ∧
     "Venice Beach" ∈ seededDB.beaches.map BeachRow.name ∧
     "Malibu Beach" ∈ seededDB.beaches.map BeachRow.name) := by
  refine ⟨fun h => ⟨?_, ?_⟩, fun h => ?_, by decide⟩
  · simp [startup_db, startup_seed, h, sortRows, insertSorted, List.foldl]
  · simp +arith [startup_db, startup_seed, h, sortRows, insertSorted, List.foldl]
  · simp [startup_db, startup_seed, List.length_eq_zero, h]

/-- Witness for `startup_seeds_iff_catalog_empty`: on the empty database the
three beaches are inserted; on a database already holding one beach nothing
changes. -/
theorem startup_seeds_iff_catalog_empty_witness :
    (startup_db false emptyDB ⟨0⟩).2.1.beaches =
      [⟨1, "Santa Monica Beach"⟩, ⟨2, "Venice Beach"⟩, ⟨3, "Malibu Beach"⟩] ∧
    (startup_db false { emptyDB with beaches := [⟨7, "Lone Beach"⟩] } ⟨0⟩).2.1 =
      { emptyDB with beaches := [⟨7, "Lone Beach"⟩] } :=
  ⟨((startup_seeds_iff_catalog_empty emptyDB ⟨0⟩).1 (by decide)).1,
   (startup_seeds_iff_catalog_empty { emptyDB with beaches := [⟨7, "Lone Beach"⟩] }
      ⟨0⟩).2.1 (by decide)⟩

/-- **C6**: on the seeded database, `get_beach_posts` with a seeded beach id
returns exactly that beach's three seeded posts; with a beach id matching no
row it returns `200 []`, not an error — in particular a beach id absent from
`beaches` (given referential integrity of `beach_posts`) and a beach with no
posts both yield the same `200 []`. -/
theorem beach_posts_seeded_and_missing (db : DB) (beach_id : Nat)
    (p : PoolState) :
    ((get_beach_posts 1 false seededDB p).1 =
      .ok [⟨1, 1, "Post A"⟩, ⟨2, 1, "Post B"⟩, ⟨3, 1, "Post C"⟩]) ∧
    ((get_beach_posts 2 false seededDB p).1 =
      .ok [⟨4, 2, "Post A"⟩, ⟨5, 2, "Post B"⟩, ⟨6, 2, "Post C"⟩]) ∧
    ((get_beach_posts 3 false seededDB p).1 =
      .ok [⟨7, 3, "Post A"⟩, ⟨8, 3, "Post B"⟩, ⟨9, 3, "Post C"⟩]) ∧
    ((∀ r ∈ db.beach_posts, r.beach_id ≠ beach_id) →
      (get_beach_posts beach_id false db p).1 = .ok []) ∧
    ((∀ b ∈ db.beaches, b.id ≠ beach_id) →
      (∀ r ∈ db.beach_posts, ∃ b ∈ db.beaches, r.beach_id = b.id) →
      (get_beach_posts beach_id false db p).1 = .ok []) := by
  refine ⟨rfl, rfl, rfl, fun h => get_beach_posts_empty_of_no_match db beach_id p h,
    fun hb hfk => get_beach_posts_empty_of_no_match db beach_id p ?_⟩
  intro r hr
  obtain ⟨b, hbmem, heq⟩ := hfk r hr
  rw [heq]
  exact hb b hbmem

/-- Witness for `beach_posts_seeded_and_missing`: on the seeded database the
id 999 matches no beach and no post, and the response is `200 []` under both
hypotheses. -/
theorem beach_posts_seeded_and_missing_witness :
    (get_beach_posts 999 false seededDB ⟨0⟩).1 = .ok [] ∧
    (get_beach_posts 999 false seededDB ⟨0⟩).1 = .ok [] :=
  ⟨(beach_posts_seeded_and_missing seededDB 999 ⟨0⟩).2.2.2.1 (by decide),
   (beach_posts_seeded_and_missing seededDB 999 ⟨0⟩).2.2.2.2 (by decide) (by decide)⟩

/-- **C8** (refuted in its invalid-token half — the code contradicts its own
test suite, `backend_test.py::test_invalid_token`, which expects 401): a
request with no bearer header is rejected 403 by the `HTTPBearer` gate, and
a correctly signed but expired token is rejected 401; but a present,
tampered (signed under "other", checked under "s") or malformed token
surfaces as the framework's 500 "Internal Server Error" — the broken
`except jwt.JWTError` clause raises `AttributeError` instead of catching —
not as the 401 the claim asserts. -/
theorem auth_gate_invalid_token_gives_500 :
    authGate none "s" 9 = .error ⟨403, "Not authenticated"⟩ ∧
    authGate (some (.signed ⟨some "bob", none⟩ (jwtSig ⟨some "bob", none⟩ "other")))
        "s" 9 = .error ⟨500, "Internal Server Error"⟩ ∧
    authGate (some (.malformed "invalid_token_12345")) "s" 9
      = .error ⟨500, "Internal Server Error"⟩ ∧
    authGate (some (.signed ⟨some "bob", some 3⟩ (jwtSig ⟨some "bob", some 3⟩ "s")))
        "s" 9 = .error ⟨401, "Token has expired"⟩ := by
  refine ⟨rfl, by decide, rfl, by decide⟩

/-- **C9**: registration (spec-modelled document-variant `register`) of a
fresh username succeeds (200), storing the hashed password, and a second
registration of the same username then fails with Conflict (400), leaving
the store unchanged. -/
theorem register_then_duplicate_conflict (hash : String → String)
    (username password password' : String) (users : List UserRow)
    (h : ∀ r ∈ users, r.login ≠ username) :
    register hash username password users
      = (.ok (), users ++ [⟨username, hash password⟩]) ∧
    register hash username password' (users ++ [⟨username, hash password⟩])
      = (.error ⟨400, "Username already registered"⟩,
         users ++ [⟨username, hash password⟩]) := by
  have hany : (users.any (fun r => r.login == username)) = false := by
    simp only [List.any_eq_false, beq_iff_eq]
    exact h
  constructor
  · simp [register, hany]
  · simp [register, List.any_append]

/-- Witness for `register_then_duplicate_conflict`: registering "alice" into
an empty credential store succeeds and stores the hash; registering "alice"
again yields 400 Conflict. -/
theorem register_then_duplicate_conflict_witness :
    register (fun s => "$2b$" ++ s) "alice" "pw123" []
      = (.ok (), [⟨"alice", "$2b$pw123"⟩]) ∧
    register (fun s => "$2b$" ++ s) "alice" "pw456" [⟨"alice", "$2b$pw123"⟩]
      = (.error ⟨400, "Username already registered"⟩, [⟨"alice", "$2b$pw123"⟩]) :=
  register_then_duplicate_conflict (fun s => "$2b$" ++ s) "alice" "pw123" "pw456"
    [] (by decide)

/-- **C10** (refuted — the code's explicit `HTTPException(401)` for a
missing `sub` claim never reaches the client): a validly signed, unexpired
token (expiry 100, checked at time 5; likewise one with no `exp` claim)
whose payload has no `sub` claim is indeed not accepted with an empty
identity, but the 401 raised inside the `try` is replaced by the
`AttributeError` from evaluating the nonexistent `jwt.JWTError` except
header, so the request surfaces as the framework's 500 "Internal Server
Error", not the 401 the claim asserts. -/
theorem missing_sub_claim_gives_500 :
    get_current_user (.signed ⟨none, some 100⟩ (jwtSig ⟨none, some 100⟩ "s"))
      "s" 5 = .error ⟨500, "Internal Server Error"⟩ ∧
    get_current_user (.signed ⟨none, none⟩ (jwtSig ⟨none, none⟩ "s"))
      "s" 5 = .error ⟨500, "Internal Server Error"⟩ ∧
    (∀ u : String,
      get_current_user (.signed ⟨none, some 100⟩ (jwtSig ⟨none, some 100⟩ "s"))
        "s" 5 ≠ .ok u) := by
  have h500 : get_current_user
      (.signed ⟨none, some 100⟩ (jwtSig ⟨none, some 100⟩ "s")) "s" 5
      = .error ⟨500, "Internal Server Error"⟩ := by decide
  refine ⟨h500, rfl, fun u h => ?_⟩
  rw [h500] at h
  exact Except.noConfusion h
